import Mathlib

/-!
Verification development for the funder core of the credit-network node.

The data model (FunderState, FriendState, TokenChannel, MutualCredit,
Ephemeral/Liveness) and the operations on it are shallowly embedded from the
repository sources.  Where the decisive code is present in the sources
(handle_liveness.rs, report.rs, app_server/messages.rs) the Lean definitions
are direct translations.  Supporting modules that are not among the provided
sources (state.rs, friend.rs, ephemeral.rs, liveness.rs, sender.rs,
canceler.rs, the control/friend-message handlers and the report mutation
application) are modelled from the specification; each such definition carries
a doc comment starting with: Modelled from the spec.
-/

/-- Public keys are modelled as natural numbers: the code treats them as
opaque, totally ordered identifiers (compare_public_key or
is_public_key_lower gives the order). -/
abbrev PublicKey := Nat

/- ### Association lists

The friends container (im::HashMap keyed by PublicKey, insertion order
irrelevant per the spec) is modelled as an association list with
key-based lookup, replace-or-append insert, pointwise update and removal. -/

def alLookup {β : Type} : List (PublicKey × β) → PublicKey → Option β
  | [], _ => none
  | (a, b) :: t, key => if a = key then some b else alLookup t key

def alInsert {β : Type} : List (PublicKey × β) → PublicKey → β → List (PublicKey × β)
  | [], key, val => [(key, val)]
  | (a, b) :: t, key, val => if a = key then (key, val) :: t else (a, b) :: alInsert t key val

def alUpdate {β : Type} : List (PublicKey × β) → PublicKey → (β → β) → List (PublicKey × β)
  | [], _, _ => []
  | (a, b) :: t, key, f => if a = key then (a, f b) :: t else (a, b) :: alUpdate t key f

def alRemove {β : Type} : List (PublicKey × β) → PublicKey → List (PublicKey × β)
  | [], _ => []
  | (a, b) :: t, key => if a = key then t else (a, b) :: alRemove t key

/-- Map a function over the values of an association list, keeping keys. -/
def mapVals {β γ : Type} (g : β → γ) (l : List (PublicKey × β)) : List (PublicKey × γ) :=
  l.map (fun p => (p.1, g p.2))

theorem alLookup_mapVals {β γ : Type} (g : β → γ) (l : List (PublicKey × β)) (k : PublicKey) :
    alLookup (mapVals g l) k = (alLookup l k).map g := by
  induction l with
  | nil => rfl
  | cons hd t ih =>
    by_cases hk : hd.1 = k
    · simp [mapVals, alLookup, hk]
    · simp [mapVals, alLookup, hk] at ih ⊢
      exact ih

theorem alLookup_alUpdate_self {β : Type} (l : List (PublicKey × β)) (k : PublicKey)
    (f : β → β) (v : β) (h : alLookup l k = some v) :
    alLookup (alUpdate l k f) k = some (f v) := by
  induction l with
  | nil => simp [alLookup] at h
  | cons hd t ih =>
    by_cases hk : hd.1 = k
    · simp [alLookup, hk] at h
      simp [alUpdate, alLookup, hk, h]
    · simp [alLookup, hk] at h
      simp [alUpdate, alLookup, hk]
      exact ih h

theorem alLookup_alUpdate_other {β : Type} (l : List (PublicKey × β)) (k k2 : PublicKey)
    (f : β → β) (h : k ≠ k2) :
    alLookup (alUpdate l k f) k2 = alLookup l k2 := by
  induction l with
  | nil => rfl
  | cons hd t ih =>
    by_cases hk : hd.1 = k
    · subst hk
      simp [alUpdate, alLookup, h]
    · simp [alUpdate, alLookup, hk]
      by_cases hk2 : hd.1 = k2
      · simp [hk2]
      · simp [hk2]
        exact ih

theorem mapVals_alInsert {β γ : Type} (g : β → γ) (l : List (PublicKey × β))
    (k : PublicKey) (v : β) :
    mapVals g (alInsert l k v) = alInsert (mapVals g l) k (g v) := by
  induction l with
  | nil => rfl
  | cons hd t ih =>
    by_cases hk : hd.1 = k
    · simp [alInsert, mapVals, hk]
    · simp [alInsert, mapVals, hk] at ih ⊢
      exact ih

theorem mapVals_alUpdate {β γ : Type} (g : β → γ) (l : List (PublicKey × β))
    (k : PublicKey) (f : β → β) (f2 : γ → γ) (hpt : ∀ v, g (f v) = f2 (g v)) :
    mapVals g (alUpdate l k f) = alUpdate (mapVals g l) k f2 := by
  induction l with
  | nil => rfl
  | cons hd t ih =>
    by_cases hk : hd.1 = k
    · simp [alUpdate, mapVals, hk, hpt]
    · simp [alUpdate, mapVals, hk] at ih ⊢
      exact ih

theorem mapVals_alRemove {β γ : Type} (g : β → γ) (l : List (PublicKey × β)) (k : PublicKey) :
    mapVals g (alRemove l k) = alRemove (mapVals g l) k := by
  induction l with
  | nil => rfl
  | cons hd t ih =>
    by_cases hk : hd.1 = k
    · simp [alRemove, mapVals, hk]
    · simp [alRemove, mapVals, hk] at ih ⊢
      exact ih

theorem mapVals_keys {β γ : Type} (g : β → γ) (l : List (PublicKey × β)) :
    (mapVals g l).map Prod.fst = l.map Prod.fst := by
  induction l with
  | nil => rfl
  | cons hd t ih => simp [mapVals] at ih ⊢

/- ### Core data model -/

/-- FriendStatus from proto::funder::messages: a friend is enabled or disabled. -/
inductive FriendStatus where
  | enabled
  | disabled
deriving DecidableEq, Repr

/-- RequestsStatus: whether new requests may be queued in a direction. -/
inductive RequestsStatus where
  | opened
  | closed
deriving DecidableEq, Repr

/-- Modelled from the spec: TcBalance of the mutual credit ledger — signed
balance plus the per-direction configured maximum debts. -/
structure TcBalance where
  balance : Int
  localMaxDebt : Nat
  remoteMaxDebt : Nat
deriving DecidableEq, Repr

/-- Modelled from the spec: request-acceptance status for both directions of
a mutual credit channel, independently per side. -/
structure TcRequestsStatus where
  local_ : RequestsStatus
  remote : RequestsStatus
deriving DecidableEq, Repr

/-- Modelled from the spec: the state of a MutualCredit ledger, as read by
create_tc_report (balance and requests status). -/
structure McState where
  balance : TcBalance
  requestsStatus : TcRequestsStatus
deriving DecidableEq, Repr

/-- Modelled from the spec: MutualCredit wraps its McState; report code reads
it through the state accessor. -/
structure MutualCredit where
  mcState : McState
deriving DecidableEq, Repr

def MutualCredit.state (mc : MutualCredit) : McState := mc.mcState

/-- Modelled from the spec: operations carried inside a move token batch.
Only the SetRemoteMaxDebt operation is exercised by the claims. -/
inductive FriendTcOp where
  | setRemoteMaxDebt (n : Nat)
deriving DecidableEq, Repr

/-- Modelled from the spec: a move token message — an operations batch plus
the move token counter, the inconsistency (reset epoch) counter and the
balance claimed by the sender. -/
structure FriendMoveToken where
  operations : List FriendTcOp
  moveTokenCounter : Nat
  inconsistencyCounter : Nat
  balance : Int
deriving DecidableEq, Repr

/-- TcDirection: Outgoing means the last move token was sent by us (the peer
currently holds the right to send the next one); Incoming means the last
move token was received, so we hold the token. Each side keeps the last
token of its direction for retransmission. -/
inductive TcDirection where
  | tcIncoming (lastIncoming : FriendMoveToken)
  | tcOutgoing (lastOutgoing : FriendMoveToken)
deriving DecidableEq, Repr

/-- Modelled from the spec: TokenChannel couples the direction with the
mutual credit ledger; report code reads both through accessors. -/
structure TokenChannel where
  direction : TcDirection
  mutualCredit : MutualCredit
deriving DecidableEq, Repr

def TokenChannel.get_direction (tc : TokenChannel) : TcDirection := tc.direction

def TokenChannel.get_mutual_credit (tc : TokenChannel) : MutualCredit := tc.mutualCredit

def TokenChannel.is_outgoing (tc : TokenChannel) : Bool :=
  match tc.direction with
  | .tcOutgoing _ => true
  | .tcIncoming _ => false

/-- Modelled from the spec: an inconsistent channel records both sides
claimed reset balances (the remote one once received). -/
structure ChannelInconsistent where
  optLastIncomingMoveToken : Option FriendMoveToken
  localResetTerms : Int
  optRemoteResetTerms : Option Int
deriving DecidableEq, Repr

/-- ChannelStatus: a friend channel is either Consistent (a token channel)
or Inconsistent (recorded reset terms). -/
inductive ChannelStatus where
  | inconsistent (ci : ChannelInconsistent)
  | consistent (tc : TokenChannel)
deriving DecidableEq, Repr

/-- Modelled from the spec: an entry of a pending queue; only the request
identifier is needed to generate a Cancel toward the origin. -/
structure Request where
  requestId : Nat
deriving DecidableEq, Repr

/-- FriendState per relationship, with the fields read by report.rs and
handle_liveness.rs: remote address, name, channel status, wanted limits,
the three pending queues and the enabled/disabled status. -/
structure FriendState (A : Type) where
  remoteAddress : A
  name : String
  channelStatus : ChannelStatus
  wantedRemoteMaxDebt : Nat
  wantedLocalRequestsStatus : RequestsStatus
  pendingResponses : List Request
  pendingRequests : List Request
  status : FriendStatus
  pendingUserRequests : List Request
deriving DecidableEq, Repr

/-- AddFriend command payload (public key, address, name, initial balance),
as in the handle_liveness.rs test. -/
structure AddFriend (A : Type) where
  friendPublicKey : PublicKey
  address : A
  name : String
  balance : Int
deriving DecidableEq, Repr

/-- FunderState: the root aggregate — local identity public key, the local
address, the friends mapping and the ready receipts. -/
structure FunderState (A : Type) where
  localPublicKey : PublicKey
  localAddress : A
  friends : List (PublicKey × FriendState A)
  readyReceipts : List Nat
deriving DecidableEq, Repr

def FunderState.new {A : Type} (localPublicKey : PublicKey) (localAddress : A) :
    FunderState A :=
  { localPublicKey := localPublicKey
    localAddress := localAddress
    friends := []
    readyReceipts := [] }

/-- Modelled from the spec: the initial move token fabricated at channel
creation — zero counters, the configured initial balance, empty batch. -/
def initialMoveToken (balance : Int) : FriendMoveToken :=
  { operations := []
    moveTokenCounter := 0
    inconsistencyCounter := 0
    balance := balance }

/-- Modelled from the spec: a fresh token channel. The side with the lower
public key starts in the Outgoing direction (it is considered to have sent
the fabricated initial move token, as asserted by the handle_liveness.rs
test where the lower local key yields an outgoing channel). -/
def new_token_channel (localPublicKey remotePublicKey : PublicKey) (balance : Int) :
    TokenChannel :=
  { direction :=
      if localPublicKey < remotePublicKey then
        .tcOutgoing (initialMoveToken balance)
      else
        .tcIncoming (initialMoveToken balance)
    mutualCredit :=
      { mcState :=
          { balance := { balance := balance, localMaxDebt := 0, remoteMaxDebt := 0 }
            requestsStatus := { local_ := .closed, remote := .closed } } } }

/-- Modelled from the spec: the FriendState created by the AddFriend
mutation — disabled, closed requests, empty queues, fresh token channel. -/
def initial_friend_state {A : Type} (localPublicKey : PublicKey) (af : AddFriend A) :
    FriendState A :=
  { remoteAddress := af.address
    name := af.name
    channelStatus := .consistent (new_token_channel localPublicKey af.friendPublicKey af.balance)
    wantedRemoteMaxDebt := 0
    wantedLocalRequestsStatus := .closed
    pendingResponses := []
    pendingRequests := []
    status := .disabled
    pendingUserRequests := [] }

/-- Modelled from the spec: mutations of a single FriendState. -/
inductive FriendMutation (A : Type) where
  | setStatus (st : FriendStatus)
  | setWantedRemoteMaxDebt (n : Nat)
  | setChannelStatus (cs : ChannelStatus)
  | setPendingResponses (l : List Request)
  | setPendingRequests (l : List Request)
  | setPendingUserRequests (l : List Request)
deriving DecidableEq, Repr

def FriendState.mutate {A : Type} (fs : FriendState A) : FriendMutation A → FriendState A
  | .setStatus st => { fs with status := st }
  | .setWantedRemoteMaxDebt n => { fs with wantedRemoteMaxDebt := n }
  | .setChannelStatus cs => { fs with channelStatus := cs }
  | .setPendingResponses l => { fs with pendingResponses := l }
  | .setPendingRequests l => { fs with pendingRequests := l }
  | .setPendingUserRequests l => { fs with pendingUserRequests := l }

/-- Modelled from the spec: mutations of the FunderState, applied
sequentially. -/
inductive FunderMutation (A : Type) where
  | addFriend (af : AddFriend A)
  | friendMutation (pk : PublicKey) (fm : FriendMutation A)
deriving DecidableEq, Repr

def FunderState.mutate {A : Type} (s : FunderState A) : FunderMutation A → FunderState A
  | .addFriend af =>
      { s with friends :=
          alInsert s.friends af.friendPublicKey (initial_friend_state s.localPublicKey af) }
  | .friendMutation pk fm =>
      { s with friends := alUpdate s.friends pk (fun fs => fs.mutate fm) }

/- ### Ephemeral liveness state -/

/-- Modelled from the spec: liveness tracks which friend public keys are
currently considered online; a key not present is offline. -/
structure Liveness where
  online : List PublicKey
deriving DecidableEq, Repr

def Liveness.is_online (lv : Liveness) (pk : PublicKey) : Bool :=
  lv.online.contains pk

/-- Modelled from the spec: SetOnline and SetOffline liveness mutations. -/
inductive LivenessMutation where
  | setOnline (pk : PublicKey)
  | setOffline (pk : PublicKey)
deriving DecidableEq, Repr

def Liveness.mutate (lv : Liveness) : LivenessMutation → Liveness
  | .setOnline pk => if lv.online.contains pk then lv else { online := pk :: lv.online }
  | .setOffline pk => { online := lv.online.erase pk }

/-- Modelled from the spec: Ephemeral process-local state, never persisted. -/
structure Ephemeral where
  liveness : Liveness
deriving DecidableEq, Repr

def Ephemeral.new : Ephemeral := { liveness := { online := [] } }

/-- Modelled from the spec: mutations of the ephemeral state. -/
inductive EphemeralMutation where
  | livenessMutation (lm : LivenessMutation)
deriving DecidableEq, Repr

def Ephemeral.mutate (e : Ephemeral) : EphemeralMutation → Ephemeral
  | .livenessMutation lm => { liveness := e.liveness.mutate lm }

/-- Modelled from the spec: MutableFunderState records the initial state,
the list of applied mutations and the current state (the Rust wrapper used
by the handler; done returns initial state, mutations and final state). -/
structure MutableFunderState (A : Type) where
  initial : FunderState A
  mutations : List (FunderMutation A)
  state : FunderState A
deriving DecidableEq, Repr

def MutableFunderState.new {A : Type} (s : FunderState A) : MutableFunderState A :=
  { initial := s, mutations := [], state := s }

def MutableFunderState.mutate {A : Type} (m : MutableFunderState A) (fm : FunderMutation A) :
    MutableFunderState A :=
  { initial := m.initial, mutations := m.mutations ++ [fm], state := m.state.mutate fm }

/-- Modelled from the spec: MutableEphemeral, analogous wrapper for the
ephemeral state. -/
structure MutableEphemeral where
  initial : Ephemeral
  mutations : List EphemeralMutation
  ephemeral : Ephemeral
deriving DecidableEq, Repr

def MutableEphemeral.new (e : Ephemeral) : MutableEphemeral :=
  { initial := e, mutations := [], ephemeral := e }

def MutableEphemeral.mutate (m : MutableEphemeral) (em : EphemeralMutation) :
    MutableEphemeral :=
  { initial := m.initial, mutations := m.mutations ++ [em], ephemeral := m.ephemeral.mutate em }

/-- Modelled from the spec: per-friend send commands set by the handler for
the sender phase; the handle_liveness.rs test reads the resend_outgoing
flag of the entry for the friend key. -/
structure FriendSendCommands where
  resendOutgoing : Bool
  trySend : Bool
deriving DecidableEq, Repr

def FriendSendCommands.new : FriendSendCommands :=
  { resendOutgoing := false, trySend := false }

/-- Modelled from the spec: the send-commands table keyed by friend public
key. -/
structure SendCommands where
  sendCommands : List (PublicKey × FriendSendCommands)
deriving DecidableEq, Repr

def SendCommands.new : SendCommands := { sendCommands := [] }

def SendCommands.get (sc : SendCommands) (pk : PublicKey) : FriendSendCommands :=
  (alLookup sc.sendCommands pk).getD FriendSendCommands.new

def SendCommands.set_resend_outgoing (sc : SendCommands) (pk : PublicKey) : SendCommands :=
  let cur := sc.get pk
  { sendCommands :=
      alInsert sc.sendCommands pk { cur with resendOutgoing := true } }

/- ### Liveness handler -/

/-- Outgoing control messages relevant to the cancellation protocol.
Modelled from the spec: a protocol-level pending request is answered with a
Cancel sent back toward its origin; a user-originated request is surfaced
to the local application as a failed send. -/
inductive FunderOutgoingControl (A : Type) where
  | cancelSent (requestId : Nat)
  | requestFailed (requestId : Nat)
deriving DecidableEq, Repr

/-- HandleLivenessError, as declared in handle_liveness.rs. -/
inductive HandleLivenessError where
  | friendDoesNotExist
  | friendIsDisabled
  | friendAlreadyOnline
deriving DecidableEq, Repr

/-- Modelled from the spec: cancel_pending_requests (handler/canceler.rs is
not among the provided sources). Going offline cancels every entry of the
pending_responses and pending_requests queues of that friend, generating a
Cancel toward the origin of each entry; the queues are emptied through
friend mutations. -/
def cancel_pending_requests {A : Type} (mState : MutableFunderState A)
    (sendCommands : SendCommands) (outgoingControl : List (FunderOutgoingControl A))
    (friendPublicKey : PublicKey) :
    MutableFunderState A × SendCommands × List (FunderOutgoingControl A) :=
  match alLookup mState.state.friends friendPublicKey with
  | none => (mState, sendCommands, outgoingControl)
  | some friend =>
    let cancels := (friend.pendingResponses ++ friend.pendingRequests).map
      (fun rq => FunderOutgoingControl.cancelSent rq.requestId)
    let mState := mState.mutate (.friendMutation friendPublicKey (.setPendingResponses []))
    let mState := mState.mutate (.friendMutation friendPublicKey (.setPendingRequests []))
    (mState, sendCommands, outgoingControl ++ cancels)

/-- Modelled from the spec: cancel_pending_user_requests — every pending
user request routed through the friend is reported to the originating
application as a failed send and the queue is emptied. -/
def cancel_pending_user_requests {A : Type} (mState : MutableFunderState A)
    (outgoingControl : List (FunderOutgoingControl A)) (friendPublicKey : PublicKey) :
    MutableFunderState A × List (FunderOutgoingControl A) :=
  match alLookup mState.state.friends friendPublicKey with
  | none => (mState, outgoingControl)
  | some friend =>
    let failures := friend.pendingUserRequests.map
      (fun rq => FunderOutgoingControl.requestFailed rq.requestId)
    let mState := mState.mutate (.friendMutation friendPublicKey (.setPendingUserRequests []))
    (mState, outgoingControl ++ failures)

/-- The mutable context threaded through handle_liveness_message: in the
Rust code these are four mutable borrows, so the function is embedded as
state passing that returns them next to the Result. -/
structure LivenessCtx (A : Type) where
  mState : MutableFunderState A
  mEphemeral : MutableEphemeral
  sendCommands : SendCommands
  outgoingControl : List (FunderOutgoingControl A)
deriving DecidableEq, Repr

/-- Incoming liveness messages. -/
inductive IncomingLivenessMessage where
  | online (pk : PublicKey)
  | offline (pk : PublicKey)
deriving DecidableEq, Repr

/-- Direct translation of handle_liveness_message from
handler/handle_liveness.rs. An early error return leaves the context as it
was at that point (the Rust borrows are simply not touched further). -/
def handle_liveness_message {A : Type} (mState : MutableFunderState A)
    (mEphemeral : MutableEphemeral) (sendCommands : SendCommands)
    (outgoingControl : List (FunderOutgoingControl A))
    (livenessMessage : IncomingLivenessMessage) :
    Except HandleLivenessError Unit × LivenessCtx A :=
  match livenessMessage with
  | .online friendPublicKey =>
    match alLookup mState.state.friends friendPublicKey with
    | none =>
        (.error .friendDoesNotExist,
         ⟨mState, mEphemeral, sendCommands, outgoingControl⟩)
    | some friend =>
      match friend.status with
      | .disabled =>
          (.error .friendIsDisabled,
           ⟨mState, mEphemeral, sendCommands, outgoingControl⟩)
      | .enabled =>
        if mEphemeral.ephemeral.liveness.is_online friendPublicKey then
          (.error .friendAlreadyOnline,
           ⟨mState, mEphemeral, sendCommands, outgoingControl⟩)
        else
          let sendCommands := sendCommands.set_resend_outgoing friendPublicKey
          let mEphemeral :=
            mEphemeral.mutate (.livenessMutation (.setOnline friendPublicKey))
          (.ok (), ⟨mState, mEphemeral, sendCommands, outgoingControl⟩)
  | .offline friendPublicKey =>
    match alLookup mState.state.friends friendPublicKey with
    | none =>
        (.error .friendDoesNotExist,
         ⟨mState, mEphemeral, sendCommands, outgoingControl⟩)
    | some friend =>
      match friend.status with
      | .disabled =>
          (.error .friendIsDisabled,
           ⟨mState, mEphemeral, sendCommands, outgoingControl⟩)
      | .enabled =>
        let mEphemeral :=
          mEphemeral.mutate (.livenessMutation (.setOffline friendPublicKey))
        let res := cancel_pending_requests mState sendCommands outgoingControl friendPublicKey
        let mState := res.1
        let sendCommands := res.2.1
        let outgoingControl := res.2.2
        let res2 := cancel_pending_user_requests mState outgoingControl friendPublicKey
        let mState := res2.1
        let outgoingControl := res2.2
        (.ok (), ⟨mState, mEphemeral, sendCommands, outgoingControl⟩)

/- ### Report projection (direct translation of report.rs) -/

/-- McReport: balance and requests status of a mutual credit ledger. -/
structure McReport where
  balance : TcBalance
  requestsStatus : TcRequestsStatus
deriving DecidableEq, Repr

/-- DirectionReport: the direction tag of a token channel. -/
inductive DirectionReport where
  | incoming
  | outgoing
deriving DecidableEq, Repr

/-- TcReport: direction plus mutual credit summary. -/
structure TcReport where
  direction : DirectionReport
  mutualCredit : McReport
deriving DecidableEq, Repr

/-- ChannelStatusReport: Inconsistent carries the recorded
ChannelInconsistent, Consistent carries a TcReport. -/
inductive ChannelStatusReport where
  | inconsistent (ci : ChannelInconsistent)
  | consistent (tcr : TcReport)
deriving DecidableEq, Repr

/-- FriendReport: the FriendState mirror with summarized pending counts. -/
structure FriendReport (A : Type) where
  remoteAddress : A
  name : String
  channelStatus : ChannelStatusReport
  wantedRemoteMaxDebt : Nat
  wantedLocalRequestsStatus : RequestsStatus
  numPendingResponses : Nat
  numPendingRequests : Nat
  status : FriendStatus
  numPendingUserRequests : Nat
deriving DecidableEq, Repr

/-- FunderReport: one FriendReport per friend, the count of ready receipts
and the local public key. -/
structure FunderReport (A : Type) where
  friends : List (PublicKey × FriendReport A)
  numReadyReceipts : Nat
  localPublicKey : PublicKey
deriving DecidableEq, Repr

/-- create_tc_report from report.rs. -/
def create_tc_report (mutualCredit : MutualCredit) : McReport :=
  { balance := mutualCredit.state.balance
    requestsStatus := mutualCredit.state.requestsStatus }

/-- The channel-status projection used inside create_friend_report in
report.rs: Inconsistent is copied, Consistent is summarized to direction
tag plus mutual credit report. -/
def channel_status_report_of (cs : ChannelStatus) : ChannelStatusReport :=
  match cs with
  | .inconsistent channelInconsistent => .inconsistent channelInconsistent
  | .consistent tokenChannel =>
    let direction :=
      match tokenChannel.get_direction with
      | .tcIncoming _ => DirectionReport.incoming
      | .tcOutgoing _ => DirectionReport.outgoing
    .consistent
      { direction := direction
        mutualCredit := create_tc_report tokenChannel.get_mutual_credit }

/-- create_friend_report from report.rs. -/
def create_friend_report {A : Type} (friendState : FriendState A) : FriendReport A :=
  { remoteAddress := friendState.remoteAddress
    name := friendState.name
    channelStatus := channel_status_report_of friendState.channelStatus
    wantedRemoteMaxDebt := friendState.wantedRemoteMaxDebt
    wantedLocalRequestsStatus := friendState.wantedLocalRequestsStatus
    numPendingResponses := friendState.pendingResponses.length
    numPendingRequests := friendState.pendingRequests.length
    status := friendState.status
    numPendingUserRequests := friendState.pendingUserRequests.length }

/-- create_report from report.rs: fold create_friend_report over all
friends, copy the ready-receipts count and the local public key. -/
def create_report {A : Type} (funderState : FunderState A) : FunderReport A :=
  { friends := mapVals create_friend_report funderState.friends
    numReadyReceipts := funderState.readyReceipts.length
    localPublicKey := funderState.localPublicKey }

/- ### Report mutations and their application -/

/-- FriendReportMutation, as declared in report.rs. -/
inductive FriendReportMutation (A : Type) where
  | setFriendInfo (info : A × String)
  | setChannelStatus (csr : ChannelStatusReport)
  | setWantedRemoteMaxDebt (n : Nat)
  | setWantedLocalRequestsStatus (rs : RequestsStatus)
  | setNumPendingResponses (n : Nat)
  | setNumPendingRequests (n : Nat)
  | setFriendStatus (st : FriendStatus)
  | setNumPendingUserRequests (n : Nat)
deriving DecidableEq, Repr

/-- FunderReportMutation, as declared in report.rs. -/
inductive FunderReportMutation (A : Type) where
  | addFriend (entry : PublicKey × A × String × Int)
  | removeFriend (pk : PublicKey)
  | friendReportMutation (entry : PublicKey × FriendReportMutation A)
  | setNumReadyReceipts (n : Nat)
deriving DecidableEq, Repr

/-- Modelled from the spec: application of a FriendReportMutation to a
FriendReport (the mutate implementation of report messages is not among
the provided sources). -/
def FriendReport.mutate {A : Type} (fr : FriendReport A) :
    FriendReportMutation A → FriendReport A
  | .setFriendInfo info => { fr with remoteAddress := info.1, name := info.2 }
  | .setChannelStatus csr => { fr with channelStatus := csr }
  | .setWantedRemoteMaxDebt n => { fr with wantedRemoteMaxDebt := n }
  | .setWantedLocalRequestsStatus rs => { fr with wantedLocalRequestsStatus := rs }
  | .setNumPendingResponses n => { fr with numPendingResponses := n }
  | .setNumPendingRequests n => { fr with numPendingRequests := n }
  | .setFriendStatus st => { fr with status := st }
  | .setNumPendingUserRequests n => { fr with numPendingUserRequests := n }

/-- Error of FunderReport mutation application. -/
inductive FunderReportMutateError where
  | friendDoesNotExist
deriving DecidableEq, Repr

/-- Modelled from the spec: the FriendReport created by the report AddFriend
mutation — mirrors the initial FriendState (disabled, closed requests, zero
pending counts, fresh consistent channel whose direction depends on the key
order). -/
def initial_friend_report {A : Type} (localPublicKey pk : PublicKey)
    (address : A) (name : String) (balance : Int) : FriendReport A :=
  { remoteAddress := address
    name := name
    channelStatus := .consistent
      { direction := if localPublicKey < pk then .outgoing else .incoming
        mutualCredit :=
          { balance := { balance := balance, localMaxDebt := 0, remoteMaxDebt := 0 }
            requestsStatus := { local_ := .closed, remote := .closed } } }
    wantedRemoteMaxDebt := 0
    wantedLocalRequestsStatus := .closed
    numPendingResponses := 0
    numPendingRequests := 0
    status := .disabled
    numPendingUserRequests := 0 }

/-- Modelled from the spec: application of a FunderReportMutation to a
FunderReport; mutating a friend that is not in the report fails. -/
def FunderReport.mutate {A : Type} (r : FunderReport A) :
    FunderReportMutation A → Except FunderReportMutateError (FunderReport A)
  | .addFriend entry =>
      let fr := initial_friend_report r.localPublicKey entry.1 entry.2.1 entry.2.2.1 entry.2.2.2
      .ok { r with friends := alInsert r.friends entry.1 fr }
  | .removeFriend pk =>
      .ok { r with friends := alRemove r.friends pk }
  | .friendReportMutation entry =>
      match alLookup r.friends entry.1 with
      | none => .error .friendDoesNotExist
      | some _ =>
          .ok { r with friends := alUpdate r.friends entry.1 (fun x => x.mutate entry.2) }
  | .setNumReadyReceipts n =>
      .ok { r with numReadyReceipts := n }

/-- Apply a list of report mutations in emission order, failing as soon as
one application fails. -/
def applyReportMutations {A : Type} (r : FunderReport A) :
    List (FunderReportMutation A) → Except FunderReportMutateError (FunderReport A)
  | [] => .ok r
  | m :: ms =>
    match r.mutate m with
    | .error e => .error e
    | .ok r2 => applyReportMutations r2 ms

/-- Modelled from the spec: the report mutation the handler emits for one
FriendMutation — limits and status are copied, pending queues are
summarized to their lengths, the channel status is projected. -/
def friend_mutation_to_report_mutation {A : Type} :
    FriendMutation A → FriendReportMutation A
  | .setStatus st => .setFriendStatus st
  | .setWantedRemoteMaxDebt n => .setWantedRemoteMaxDebt n
  | .setChannelStatus cs => .setChannelStatus (channel_status_report_of cs)
  | .setPendingResponses l => .setNumPendingResponses l.length
  | .setPendingRequests l => .setNumPendingRequests l.length
  | .setPendingUserRequests l => .setNumPendingUserRequests l.length

/-- Modelled from the spec: the report mutations the handler emits for one
FunderMutation. -/
def funder_mutation_to_report_mutations {A : Type} :
    FunderMutation A → List (FunderReportMutation A)
  | .addFriend af => [.addFriend (af.friendPublicKey, af.address, af.name, af.balance)]
  | .friendMutation pk fm => [.friendReportMutation (pk, friend_mutation_to_report_mutation fm)]

/- ### Control events and handler mutation emission (for the report
refinement) -/

/-- Modelled from the spec: the control events exercised by the report
refinement scenario — add friend, enable or disable, set the wanted remote
max debt. -/
inductive Event (A : Type) where
  | addFriend (af : AddFriend A)
  | setFriendStatus (pk : PublicKey) (st : FriendStatus)
  | setFriendRemoteMaxDebt (pk : PublicKey) (n : Nat)
deriving DecidableEq, Repr

/-- Modelled from the spec: validation and mutation emission of the handler
for one control event. A valid event yields the state mutations together
with the report mutations emitted for observers; an invalid event (unknown
friend, duplicate add) is rejected with no mutation at all. -/
def handleEvent {A : Type} (s : FunderState A) :
    Event A → Option (List (FunderMutation A) × List (FunderReportMutation A))
  | .addFriend af =>
    match alLookup s.friends af.friendPublicKey with
    | some _ => none
    | none =>
      let m := FunderMutation.addFriend af
      some ([m], funder_mutation_to_report_mutations m)
  | .setFriendStatus pk st =>
    match alLookup s.friends pk with
    | none => none
    | some _ =>
      let m := FunderMutation.friendMutation pk (.setStatus st)
      some ([m], funder_mutation_to_report_mutations m)
  | .setFriendRemoteMaxDebt pk n =>
    match alLookup s.friends pk with
    | none => none
    | some _ =>
      let m := FunderMutation.friendMutation pk (.setWantedRemoteMaxDebt n)
      some ([m], funder_mutation_to_report_mutations m)

/-- Run a sequence of events: invalid events contribute no mutations; the
final state and the concatenated report mutation stream are returned. -/
def runEvents {A : Type} (s : FunderState A) :
    List (Event A) → FunderState A × List (FunderReportMutation A)
  | [] => (s, [])
  | e :: es =>
    match handleEvent s e with
    | none => runEvents s es
    | some (ms, rms) =>
      let s2 := ms.foldl FunderState.mutate s
      let res := runEvents s2 es
      (res.1, rms ++ res.2)

/- ### NodeReport (direct translation of app_server/messages.rs) -/

/-- Modelled from the spec: the index client report — the list of index
servers in use and the server currently connected, if any (the index
client messages module is not among the provided sources). -/
structure IndexClientReport (B : Type) where
  indexServers : List B
  optConnectedServer : Option B
deriving DecidableEq, Repr

/-- Modelled from the spec: index client report mutations; their
application is total (the mutate call in NodeReport has no error path on
this variant). -/
inductive IndexClientReportMutation (B : Type) where
  | addIndexServer (b : B)
  | removeIndexServer (b : B)
  | setConnectedServer (ob : Option B)
deriving DecidableEq, Repr

/-- Modelled from the spec: total application of an index client report
mutation. -/
def IndexClientReport.mutate {B : Type} [DecidableEq B] (r : IndexClientReport B) :
    IndexClientReportMutation B → IndexClientReport B
  | .addIndexServer b => { r with indexServers := r.indexServers ++ [b] }
  | .removeIndexServer b => { r with indexServers := r.indexServers.filter (fun x => x ≠ b) }
  | .setConnectedServer ob => { r with optConnectedServer := ob }

/-- NodeReport from app_server/messages.rs: the funder report next to the
index client report. -/
structure NodeReport (B : Type) where
  funderReport : FunderReport B
  indexClientReport : IndexClientReport B
deriving DecidableEq, Repr

/-- NodeReportMutation from app_server/messages.rs. -/
inductive NodeReportMutation (B : Type) where
  | funder (fm : FunderReportMutation B)
  | indexClient (im : IndexClientReportMutation B)
deriving DecidableEq, Repr

/-- NodeReportMutateError from app_server/messages.rs. -/
inductive NodeReportMutateError where
  | nodeReportMutateError
deriving DecidableEq, Repr

/-- Direct translation of the MutableState mutate implementation for
NodeReport in app_server/messages.rs: a Funder mutation delegates to the
funder report and maps its error; an IndexClient mutation delegates to the
(infallible) index client mutate. -/
def NodeReport.mutate {B : Type} [DecidableEq B] (r : NodeReport B) (m : NodeReportMutation B) :
    Except NodeReportMutateError (NodeReport B) :=
  match m with
  | .funder fm =>
    match r.funderReport.mutate fm with
    | .error _ => .error .nodeReportMutateError
    | .ok fr => .ok { r with funderReport := fr }
  | .indexClient im =>
    .ok { r with indexClientReport := r.indexClientReport.mutate im }

/- ### Friend messages, sender and full handler (for the two-node scenario) -/

/-- MoveTokenRequest: a move token together with the token_wanted flag. -/
structure MoveTokenRequest where
  friendMoveToken : FriendMoveToken
  tokenWanted : Bool
deriving DecidableEq, Repr

/-- Messages exchanged between friends; the scenario only exercises
MoveTokenRequest. -/
inductive FriendMessage where
  | moveTokenRequest (mtr : MoveTokenRequest)
deriving DecidableEq, Repr

/-- Outgoing communication of the funder: a message to a friend. -/
inductive FunderOutgoingComm (A : Type) where
  | friendMessage (pk : PublicKey) (msg : FriendMessage)
deriving DecidableEq, Repr

/-- Incoming control messages used by the scenario. -/
inductive IncomingControlMessage (A : Type) where
  | addFriend (af : AddFriend A)
  | setFriendStatus (pk : PublicKey) (st : FriendStatus)
  | setFriendRemoteMaxDebt (pk : PublicKey) (n : Nat)
deriving DecidableEq, Repr

/-- Incoming communication messages: liveness notifications and friend
messages. -/
inductive IncomingCommMessage where
  | liveness (lm : IncomingLivenessMessage)
  | friend (pk : PublicKey) (msg : FriendMessage)
deriving DecidableEq, Repr

/-- FunderIncoming events entering the handler. -/
inductive FunderIncoming (A : Type) where
  | init
  | control (cm : IncomingControlMessage A)
  | comm (cm : IncomingCommMessage)
deriving DecidableEq, Repr

/-- FunderHandlerError: the validation and protocol errors of the handler. -/
inductive FunderHandlerError where
  | friendDoesNotExist
  | friendAlreadyExists
  | friendIsDisabled
  | friendAlreadyOnline
  | tokenMismatch
deriving DecidableEq, Repr

def liveness_error_to_handler_error : HandleLivenessError → FunderHandlerError
  | .friendDoesNotExist => .friendDoesNotExist
  | .friendIsDisabled => .friendIsDisabled
  | .friendAlreadyOnline => .friendAlreadyOnline

/-- Modelled from the spec: applying an operation of an outgoing batch on
the side that created it — SetRemoteMaxDebt raises our remote max debt. -/
def apply_op_local (mc : MutualCredit) : FriendTcOp → MutualCredit
  | .setRemoteMaxDebt n =>
    let st := mc.mcState
    let bl := st.balance
    { mcState := { st with balance := { bl with remoteMaxDebt := n } } }

/-- Modelled from the spec: applying an operation of an accepted incoming
batch — the SetRemoteMaxDebt of the peer raises our local max debt. -/
def apply_op_remote (mc : MutualCredit) : FriendTcOp → MutualCredit
  | .setRemoteMaxDebt n =>
    let st := mc.mcState
    let bl := st.balance
    { mcState := { st with balance := { bl with localMaxDebt := n } } }

/-- Modelled from the spec: whether this friend has sendable content — the
wanted remote max debt differs from the one recorded in the mutual
credit. -/
def wants_to_send {A : Type} (friend : FriendState A) (tc : TokenChannel) : Bool :=
  friend.wantedRemoteMaxDebt != tc.mutualCredit.mcState.balance.remoteMaxDebt

/-- Modelled from the spec: create and send the next move token — the batch
holds the pending SetRemoteMaxDebt operation when one is due, the counter
advances by one, the direction flips to Outgoing. -/
def hand_token {A : Type} (friend : FriendState A) (tc : TokenChannel)
    (lastCounter lastInconsistency : Nat) : FriendState A × FriendMessage :=
  let wants := wants_to_send friend tc
  let ops := if wants then [FriendTcOp.setRemoteMaxDebt friend.wantedRemoteMaxDebt] else []
  let mc2 := ops.foldl apply_op_local tc.mutualCredit
  let newToken : FriendMoveToken :=
    { operations := ops
      moveTokenCounter := lastCounter + 1
      inconsistencyCounter := lastInconsistency
      balance := mc2.mcState.balance.balance }
  let cs2 := ChannelStatus.consistent { direction := .tcOutgoing newToken, mutualCredit := mc2 }
  let friend2 := { friend with channelStatus := cs2 }
  (friend2, .moveTokenRequest { friendMoveToken := newToken, tokenWanted := false })

/-- Modelled from the spec: the sender phase for one friend. An online,
enabled, consistent friend in Outgoing direction resends the last outgoing
move token when a resend was requested or content is pending, with
token_wanted set exactly when content is pending; a friend in Incoming
direction (we hold the token) sends a fresh move token when content is
pending. -/
def try_send {A : Type} (s : FunderState A) (eph : Ephemeral) (pk : PublicKey)
    (resendRequested : Bool) : FunderState A × List (FunderOutgoingComm A) :=
  match alLookup s.friends pk with
  | none => (s, [])
  | some friend =>
    if eph.liveness.is_online pk && (friend.status == FriendStatus.enabled) then
      match friend.channelStatus with
      | .inconsistent _ => (s, [])
      | .consistent tc =>
        match tc.direction with
        | .tcOutgoing lastOut =>
          let wants := wants_to_send friend tc
          if resendRequested || wants then
            (s, [.friendMessage pk
                  (.moveTokenRequest { friendMoveToken := lastOut, tokenWanted := wants })])
          else (s, [])
        | .tcIncoming lastIn =>
          if wants_to_send friend tc then
            let res := hand_token friend tc lastIn.moveTokenCounter lastIn.inconsistencyCounter
            ({ s with friends := alUpdate s.friends pk (fun _ => res.1) },
             [.friendMessage pk res.2])
          else (s, [])
    else (s, [])

/-- Modelled from the spec: run the sender phase over the send-commands
table, accumulating outgoing messages. -/
def send_phase {A : Type} (s : FunderState A) (eph : Ephemeral) :
    List (PublicKey × FriendSendCommands) → FunderState A × List (FunderOutgoingComm A)
  | [] => (s, [])
  | (pk, fsc) :: t =>
    let res := try_send s eph pk fsc.resendOutgoing
    let rest := send_phase res.1 eph t
    (rest.1, res.2 ++ rest.2)

/-- Modelled from the spec: funder_handle_message — the pure transition of
the Funder Handler mapping (state, ephemeral, event) to (state, ephemeral,
outgoing messages) or a typed error. Covers the events of the two-node
scenario: Init, control AddFriend / SetFriendStatus / SetFriendRemoteMaxDebt,
liveness notifications and incoming MoveTokenRequest messages. -/
def funder_handle_message {A : Type} (s : FunderState A) (eph : Ephemeral)
    (incoming : FunderIncoming A) :
    Except FunderHandlerError (FunderState A × Ephemeral × List (FunderOutgoingComm A)) :=
  match incoming with
  | .init => .ok (s, Ephemeral.new, [])
  | .control (.addFriend af) =>
    match alLookup s.friends af.friendPublicKey with
    | some _ => .error .friendAlreadyExists
    | none => .ok (s.mutate (.addFriend af), eph, [])
  | .control (.setFriendStatus pk st) =>
    match alLookup s.friends pk with
    | none => .error .friendDoesNotExist
    | some _ => .ok (s.mutate (.friendMutation pk (.setStatus st)), eph, [])
  | .control (.setFriendRemoteMaxDebt pk n) =>
    match alLookup s.friends pk with
    | none => .error .friendDoesNotExist
    | some _ =>
      let s2 := s.mutate (.friendMutation pk (.setWantedRemoteMaxDebt n))
      let res := try_send s2 eph pk false
      .ok (res.1, eph, res.2)
  | .comm (.liveness lm) =>
    let hres := handle_liveness_message (.new s) (.new eph) SendCommands.new [] lm
    match hres.1 with
    | .error e => .error (liveness_error_to_handler_error e)
    | .ok _ =>
      let s2 := hres.2.mState.state
      let eph2 := hres.2.mEphemeral.ephemeral
      let sres := send_phase s2 eph2 hres.2.sendCommands.sendCommands
      .ok (sres.1, eph2, sres.2)
  | .comm (.friend pk fmsg) =>
    match alLookup s.friends pk with
    | none => .error .friendDoesNotExist
    | some friend =>
      match friend.status with
      | .disabled => .error .friendIsDisabled
      | .enabled =>
        match friend.channelStatus with
        | .inconsistent _ => .error .tokenMismatch
        | .consistent tc =>
          match fmsg with
          | .moveTokenRequest mtr =>
            match tc.direction with
            | .tcIncoming lastIn =>
              if mtr.friendMoveToken.moveTokenCounter = lastIn.moveTokenCounter then
                if mtr.tokenWanted then
                  let res := hand_token friend tc lastIn.moveTokenCounter
                    lastIn.inconsistencyCounter
                  .ok ({ s with friends := alUpdate s.friends pk (fun _ => res.1) }, eph,
                       [.friendMessage pk res.2])
                else .ok (s, eph, [])
              else .error .tokenMismatch
            | .tcOutgoing lastOut =>
              if mtr.friendMoveToken.moveTokenCounter = lastOut.moveTokenCounter + 1 then
                let mc2 := mtr.friendMoveToken.operations.foldl apply_op_remote tc.mutualCredit
                let tc2 : TokenChannel :=
                  { direction := .tcIncoming mtr.friendMoveToken, mutualCredit := mc2 }
                let friend2 := { friend with channelStatus := ChannelStatus.consistent tc2 }
                let s2 := { s with friends := alUpdate s.friends pk (fun _ => friend2) }
                let res := try_send s2 eph pk false
                .ok (res.1, eph, res.2)
              else .error .tokenMismatch

/-- Extract the single friend message of an outgoing batch (the scenario
expects exactly one). -/
def extract_friend_message {A : Type} (comms : List (FunderOutgoingComm A)) :
    Except FunderHandlerError FriendMessage :=
  match comms with
  | [FunderOutgoingComm.friendMessage _ m] => .ok m
  | _ => .error .tokenMismatch

/-- The end-to-end two-node scenario of handler/tests.rs
(task_handler_pair_basic): both nodes initialize, add each other as friends
with addresses 22 and 11, enable each other and bring each other online;
node2 answers the messages of node1. Returned are the outgoing batches of
node1 at the three checkpoints: after node2 comes online, after
SetFriendRemoteMaxDebt(100), and after node1 regains the token. -/
def two_node_scenario :
    Except FunderHandlerError
      (List (FunderOutgoingComm Nat) × List (FunderOutgoingComm Nat) ×
       List (FunderOutgoingComm Nat)) := do
  let pk1 : PublicKey := 1
  let pk2 : PublicKey := 2
  -- Initialize 1 and 2:
  let (s1, e1, _) ← funder_handle_message (FunderState.new pk1 (0 : Nat)) Ephemeral.new .init
  let (s2, e2, _) ← funder_handle_message (FunderState.new pk2 (0 : Nat)) Ephemeral.new .init
  -- Node1: add friend 2 with address 22, then enable:
  let af2 : AddFriend Nat :=
    { friendPublicKey := pk2, address := 22, name := "node2", balance := 0 }
  let (s1, e1, _) ← funder_handle_message s1 e1 (.control (.addFriend af2))
  let (s1, e1, _) ← funder_handle_message s1 e1 (.control (.setFriendStatus pk2 .enabled))
  -- Node2: add friend 1 with address 11, then enable:
  let af1 : AddFriend Nat :=
    { friendPublicKey := pk1, address := 11, name := "node1", balance := 0 }
  let (s2, e2, _) ← funder_handle_message s2 e2 (.control (.addFriend af1))
  let (s2, e2, _) ← funder_handle_message s2 e2 (.control (.setFriendStatus pk1 .enabled))
  -- Node1: notified that node2 is alive; first checkpoint:
  let (s1, e1, commsA) ← funder_handle_message s1 e1 (.comm (.liveness (.online pk2)))
  -- Node2: notified that node1 is alive:
  let (s2, e2, _) ← funder_handle_message s2 e2 (.comm (.liveness (.online pk1)))
  -- Node2: receives the resent move token of node1:
  let mA ← extract_friend_message commsA
  let (s2, e2, _) ← funder_handle_message s2 e2 (.comm (.friend pk1 mA))
  -- Node1: control SetFriendRemoteMaxDebt(100); second checkpoint:
  let (s1, e1, commsB) ←
    funder_handle_message s1 e1 (.control (.setFriendRemoteMaxDebt pk2 100))
  -- Node2: receives the token request, hands the token over:
  let mB ← extract_friend_message commsB
  let (s2, e2, commsC) ← funder_handle_message s2 e2 (.comm (.friend pk1 mB))
  -- Node1: receives the token; third checkpoint:
  let mC ← extract_friend_message commsC
  let (_s1, _e1, commsD) ← funder_handle_message s1 e1 (.comm (.friend pk2 mC))
  -- Node2: receives the SetRemoteMaxDebt batch:
  let mD ← extract_friend_message commsD
  let (_s2, _e2, _) ← funder_handle_message s2 e2 (.comm (.friend pk1 mD))
  pure (commsA, commsB, commsD)

/- ### Additional association list lemmas -/

theorem alLookup_alInsert_self {β : Type} (l : List (PublicKey × β)) (k : PublicKey) (v : β) :
    alLookup (alInsert l k v) k = some v := by
  induction l with
  | nil => simp [alInsert, alLookup]
  | cons hd t ih =>
    by_cases hk : hd.1 = k
    · simp [alInsert, alLookup, hk]
    · simp [alInsert, alLookup, hk]
      exact ih

/- ### Concrete example states used by the witnesses -/

/-- A concrete friend: enabled, consistent outgoing channel, nonempty
pending queues. -/
def exampleFriend : FriendState Nat :=
  { remoteAddress := 3
    name := "remote"
    channelStatus := .consistent (new_token_channel 1 2 0)
    wantedRemoteMaxDebt := 0
    wantedLocalRequestsStatus := .closed
    pendingResponses := [{ requestId := 10 }]
    pendingRequests := [{ requestId := 11 }, { requestId := 12 }]
    status := .enabled
    pendingUserRequests := [{ requestId := 13 }] }

/-- A concrete funder state with local key 1 and one enabled friend 2. -/
def exampleState : FunderState Nat :=
  { localPublicKey := 1
    localAddress := 0
    friends := [(2, exampleFriend)]
    readyReceipts := [7] }

/-- The same friend after all pending queues were emptied. -/
def exampleFriendEmptied : FriendState Nat :=
  { exampleFriend with pendingResponses := [], pendingRequests := [], pendingUserRequests := [] }

/-- The same funder state after all pending queues of friend 2 were
emptied. -/
def exampleStateEmptied : FunderState Nat :=
  { exampleState with friends := [(2, exampleFriendEmptied)] }

/-- An ephemeral state in which friend 2 is online. -/
def exampleEphemeralOnline : Ephemeral := { liveness := { online := [2] } }

/- ### Liveness claims -/

/-- C5: for every FunderState with an existing, enabled friend that is
currently marked online in Ephemeral, handling a Liveness Online message
for that friend returns the error FriendAlreadyOnline and produces no
state or ephemeral mutation (the context is returned exactly as given). -/
theorem online_already_online_error {A : Type} (s : FunderState A) (eph : Ephemeral)
    (sc : SendCommands) (oc : List (FunderOutgoingControl A)) (pk : PublicKey)
    (fs : FriendState A) (hlook : alLookup s.friends pk = some fs)
    (hen : fs.status = .enabled) (hon : eph.liveness.is_online pk = true) :
    handle_liveness_message (.new s) (.new eph) sc oc (.online pk) =
      (.error .friendAlreadyOnline, ⟨.new s, .new eph, sc, oc⟩) := by
  simp [handle_liveness_message, MutableFunderState.new, MutableEphemeral.new, hlook, hen, hon]

/-- Witness for C5: the theorem applied to the concrete example state with
friend 2 online. -/
theorem online_already_online_error_witness :
    alLookup exampleState.friends 2 = some exampleFriend ∧
    exampleFriend.status = .enabled ∧
    exampleEphemeralOnline.liveness.is_online 2 = true ∧
    handle_liveness_message (.new exampleState) (.new exampleEphemeralOnline)
        SendCommands.new ([] : List (FunderOutgoingControl Nat)) (.online 2) =
      (.error .friendAlreadyOnline,
       ⟨.new exampleState, .new exampleEphemeralOnline, SendCommands.new, []⟩) :=
  ⟨by decide, by decide, by decide,
   online_already_online_error exampleState exampleEphemeralOnline SendCommands.new [] 2
     exampleFriend (by decide) (by decide) (by decide)⟩

/-- Helper: full description of the successful Online transition — the
state wrapper untouched, a single SetOnline ephemeral mutation, the
resend_outgoing send command set, the outgoing control untouched. -/
theorem handle_liveness_online_ok {A : Type} (s : FunderState A) (eph : Ephemeral)
    (sc : SendCommands) (oc : List (FunderOutgoingControl A)) (pk : PublicKey)
    (fs : FriendState A) (hlook : alLookup s.friends pk = some fs)
    (hen : fs.status = .enabled) (hoff : eph.liveness.is_online pk = false) :
    handle_liveness_message (.new s) (.new eph) sc oc (.online pk) =
      (.ok (), ⟨.new s,
        (MutableEphemeral.new eph).mutate (.livenessMutation (.setOnline pk)),
        sc.set_resend_outgoing pk, oc⟩) := by
  simp [handle_liveness_message, MutableFunderState.new, MutableEphemeral.new, hlook, hen, hoff]

/-- C7: for every FunderState with an existing, enabled friend that was
offline, handling a Liveness Online message succeeds and sets the
resend_outgoing send command for that friend, so the last outstanding
outgoing move token is re-sent by the sender phase. -/
theorem online_sets_resend_outgoing {A : Type} (s : FunderState A) (eph : Ephemeral)
    (sc : SendCommands) (oc : List (FunderOutgoingControl A)) (pk : PublicKey)
    (fs : FriendState A) (hlook : alLookup s.friends pk = some fs)
    (hen : fs.status = .enabled) (hoff : eph.liveness.is_online pk = false) :
    (handle_liveness_message (.new s) (.new eph) sc oc (.online pk)).1 = .ok () ∧
    (((handle_liveness_message (.new s) (.new eph) sc oc
        (.online pk)).2.sendCommands).get pk).resendOutgoing = true := by
  rw [handle_liveness_online_ok s eph sc oc pk fs hlook hen hoff]
  refine ⟨rfl, ?_⟩
  simp [SendCommands.set_resend_outgoing, SendCommands.get, alLookup_alInsert_self]

/-- Witness for C7 at the concrete example state with friend 2 offline. -/
theorem online_sets_resend_outgoing_witness :
    alLookup exampleState.friends 2 = some exampleFriend ∧
    exampleFriend.status = .enabled ∧
    Ephemeral.new.liveness.is_online 2 = false ∧
    ((handle_liveness_message (.new exampleState) (.new Ephemeral.new)
        SendCommands.new ([] : List (FunderOutgoingControl Nat)) (.online 2)).1 = .ok () ∧
     (((handle_liveness_message (.new exampleState) (.new Ephemeral.new)
        SendCommands.new ([] : List (FunderOutgoingControl Nat))
        (.online 2)).2.sendCommands).get 2).resendOutgoing = true) :=
  ⟨by decide, by decide, by decide,
   online_sets_resend_outgoing exampleState Ephemeral.new SendCommands.new [] 2
     exampleFriend (by decide) (by decide) (by decide)⟩

/-- C9: for every FunderState with an existing, enabled friend that was
offline, successfully handling a Liveness Online message emits exactly one
ephemeral mutation — SetOnline for that friend — and zero FunderState
mutations: liveness marking touches ephemeral state only. -/
theorem online_single_ephemeral_mutation {A : Type} (s : FunderState A) (eph : Ephemeral)
    (sc : SendCommands) (oc : List (FunderOutgoingControl A)) (pk : PublicKey)
    (fs : FriendState A) (hlook : alLookup s.friends pk = some fs)
    (hen : fs.status = .enabled) (hoff : eph.liveness.is_online pk = false) :
    (handle_liveness_message (.new s) (.new eph) sc oc (.online pk)).1 = .ok () ∧
    (handle_liveness_message (.new s) (.new eph) sc oc (.online pk)).2.mEphemeral.mutations =
      [.livenessMutation (.setOnline pk)] ∧
    (handle_liveness_message (.new s) (.new eph) sc oc (.online pk)).2.mState.mutations = [] := by
  rw [handle_liveness_online_ok s eph sc oc pk fs hlook hen hoff]
  exact ⟨rfl, rfl, rfl⟩

/-- Witness for C9 at the concrete example state with friend 2 offline. -/
theorem online_single_ephemeral_mutation_witness :
    alLookup exampleState.friends 2 = some exampleFriend ∧
    exampleFriend.status = .enabled ∧
    Ephemeral.new.liveness.is_online 2 = false ∧
    ((handle_liveness_message (.new exampleState) (.new Ephemeral.new)
        SendCommands.new ([] : List (FunderOutgoingControl Nat)) (.online 2)).1 = .ok () ∧
     (handle_liveness_message (.new exampleState) (.new Ephemeral.new)
        SendCommands.new ([] : List (FunderOutgoingControl Nat))
        (.online 2)).2.mEphemeral.mutations = [.livenessMutation (.setOnline 2)] ∧
     (handle_liveness_message (.new exampleState) (.new Ephemeral.new)
        SendCommands.new ([] : List (FunderOutgoingControl Nat))
        (.online 2)).2.mState.mutations = []) :=
  ⟨by decide, by decide, by decide,
   online_single_ephemeral_mutation exampleState Ephemeral.new SendCommands.new [] 2
     exampleFriend (by decide) (by decide) (by decide)⟩

/-- C8: whenever handle_liveness_message returns an error, the whole
context — funder state wrapper, ephemeral wrapper, send commands and
outgoing control — is returned exactly as it was given: errors never come
with a partial mutation. -/
theorem liveness_error_no_mutation {A : Type} (mst : MutableFunderState A)
    (meph : MutableEphemeral) (sc : SendCommands) (oc : List (FunderOutgoingControl A))
    (msg : IncomingLivenessMessage) (e : HandleLivenessError)
    (herr : (handle_liveness_message mst meph sc oc msg).1 = .error e) :
    (handle_liveness_message mst meph sc oc msg).2 = ⟨mst, meph, sc, oc⟩ := by
  cases msg with
  | online pk =>
    cases hl : alLookup mst.state.friends pk with
    | none => simp [handle_liveness_message, hl]
    | some friend =>
      cases hst : friend.status with
      | disabled => simp [handle_liveness_message, hl, hst]
      | enabled =>
        by_cases hon : meph.ephemeral.liveness.is_online pk
        · simp [handle_liveness_message, hl, hst, hon]
        · exfalso
          simp [handle_liveness_message, hl, hst, hon] at herr
  | offline pk =>
    cases hl : alLookup mst.state.friends pk with
    | none => simp [handle_liveness_message, hl]
    | some friend =>
      cases hst : friend.status with
      | disabled => simp [handle_liveness_message, hl, hst]
      | enabled =>
        exfalso
        simp [handle_liveness_message, hl, hst] at herr

/-- Witness for C8: a Liveness Online message for a friend that does not
exist errors on the concrete example state, and the context comes back
untouched. -/
theorem liveness_error_no_mutation_witness :
    (handle_liveness_message (.new exampleState) (.new Ephemeral.new)
        SendCommands.new ([] : List (FunderOutgoingControl Nat)) (.online 5)).1 =
      .error .friendDoesNotExist ∧
    (handle_liveness_message (.new exampleState) (.new Ephemeral.new)
        SendCommands.new ([] : List (FunderOutgoingControl Nat)) (.online 5)).2 =
      ⟨.new exampleState, .new Ephemeral.new, SendCommands.new, []⟩ :=
  ⟨by rfl,
   liveness_error_no_mutation (.new exampleState) (.new Ephemeral.new)
     SendCommands.new [] (.online 5) .friendDoesNotExist (by rfl)⟩

/-- C1: for every FunderState with an existing, enabled friend, handling a
Liveness Offline message for that friend succeeds, empties all three
pending queues of that friend, and generates one Cancel toward the origin
for every entry of the pending-responses and pending-requests queues plus
one failure report to the local application for every pending user
request — no pending entry is silently dropped. -/
theorem offline_cancels_all_pending {A : Type} (s : FunderState A) (eph : Ephemeral)
    (sc : SendCommands) (oc : List (FunderOutgoingControl A)) (pk : PublicKey)
    (fs : FriendState A) (hlook : alLookup s.friends pk = some fs)
    (hen : fs.status = .enabled) :
    (handle_liveness_message (.new s) (.new eph) sc oc (.offline pk)).1 = .ok () ∧
    alLookup (handle_liveness_message (.new s) (.new eph) sc oc
        (.offline pk)).2.mState.state.friends pk =
      some (((fs.mutate (.setPendingResponses [])).mutate
        (.setPendingRequests [])).mutate (.setPendingUserRequests [])) ∧
    (((fs.mutate (.setPendingResponses [])).mutate
        (.setPendingRequests [])).mutate (.setPendingUserRequests [])).pendingResponses = [] ∧
    (((fs.mutate (.setPendingResponses [])).mutate
        (.setPendingRequests [])).mutate (.setPendingUserRequests [])).pendingRequests = [] ∧
    (((fs.mutate (.setPendingResponses [])).mutate
        (.setPendingRequests [])).mutate (.setPendingUserRequests [])).pendingUserRequests = [] ∧
    (handle_liveness_message (.new s) (.new eph) sc oc (.offline pk)).2.outgoingControl =
      oc ++ (fs.pendingResponses ++ fs.pendingRequests).map
              (fun rq => FunderOutgoingControl.cancelSent rq.requestId)
         ++ fs.pendingUserRequests.map
              (fun rq => FunderOutgoingControl.requestFailed rq.requestId) := by
  have h1 : alLookup (alUpdate s.friends pk
      (fun x => FriendState.mutate x (.setPendingResponses []))) pk =
      some (fs.mutate (.setPendingResponses [])) :=
    alLookup_alUpdate_self _ _ _ _ hlook
  have h2 : alLookup (alUpdate (alUpdate s.friends pk
      (fun x => FriendState.mutate x (.setPendingResponses []))) pk
      (fun x => FriendState.mutate x (.setPendingRequests []))) pk =
      some ((fs.mutate (.setPendingResponses [])).mutate (.setPendingRequests [])) :=
    alLookup_alUpdate_self _ _ _ _ h1
  have h3 : alLookup (alUpdate (alUpdate (alUpdate s.friends pk
      (fun x => FriendState.mutate x (.setPendingResponses []))) pk
      (fun x => FriendState.mutate x (.setPendingRequests []))) pk
      (fun x => FriendState.mutate x (.setPendingUserRequests []))) pk =
      some (((fs.mutate (.setPendingResponses [])).mutate
        (.setPendingRequests [])).mutate (.setPendingUserRequests [])) :=
    alLookup_alUpdate_self _ _ _ _ h2
  refine ⟨?_, ?_, by simp [FriendState.mutate], by simp [FriendState.mutate],
    by simp [FriendState.mutate], ?_⟩
  all_goals
    simp only [handle_liveness_message, cancel_pending_requests, cancel_pending_user_requests,
      MutableFunderState.new, MutableFunderState.mutate, FunderState.mutate,
      MutableEphemeral.new, MutableEphemeral.mutate, hlook, hen, h1, h2, h3]
  all_goals
    try simp [FriendState.mutate, List.map_append, List.append_assoc]

/-- Witness for C1 at the concrete example state: friend 2 has one pending
response, two pending requests and one pending user request. -/
theorem offline_cancels_all_pending_witness :
    alLookup exampleState.friends 2 = some exampleFriend ∧
    exampleFriend.status = .enabled ∧
    ((handle_liveness_message (.new exampleState) (.new Ephemeral.new) SendCommands.new
        ([] : List (FunderOutgoingControl Nat)) (.offline 2)).1 = .ok () ∧
     alLookup (handle_liveness_message (.new exampleState) (.new Ephemeral.new) SendCommands.new
        ([] : List (FunderOutgoingControl Nat)) (.offline 2)).2.mState.state.friends 2 =
       some (((exampleFriend.mutate (.setPendingResponses [])).mutate
         (.setPendingRequests [])).mutate (.setPendingUserRequests [])) ∧
     (((exampleFriend.mutate (.setPendingResponses [])).mutate
         (.setPendingRequests [])).mutate (.setPendingUserRequests [])).pendingResponses = [] ∧
     (((exampleFriend.mutate (.setPendingResponses [])).mutate
         (.setPendingRequests [])).mutate (.setPendingUserRequests [])).pendingRequests = [] ∧
     (((exampleFriend.mutate (.setPendingResponses [])).mutate
         (.setPendingRequests [])).mutate (.setPendingUserRequests [])).pendingUserRequests
           = [] ∧
     (handle_liveness_message (.new exampleState) (.new Ephemeral.new) SendCommands.new
        ([] : List (FunderOutgoingControl Nat)) (.offline 2)).2.outgoingControl =
       [] ++ (exampleFriend.pendingResponses ++ exampleFriend.pendingRequests).map
               (fun rq => FunderOutgoingControl.cancelSent rq.requestId)
          ++ exampleFriend.pendingUserRequests.map
               (fun rq => FunderOutgoingControl.requestFailed rq.requestId)) :=
  ⟨by decide, by decide,
   offline_cancels_all_pending exampleState Ephemeral.new SendCommands.new [] 2
     exampleFriend (by decide) (by decide)⟩

/-- Helper: marking a friend offline keeps an already-offline friend
offline. -/
theorem is_online_mutate_setOffline (lv : Liveness) (pk : PublicKey)
    (h : lv.is_online pk = false) :
    (lv.mutate (.setOffline pk)).is_online pk = false := by
  simp only [Liveness.mutate, Liveness.is_online] at h ⊢
  have hm : pk ∉ lv.online := by simpa using h
  rw [List.erase_of_not_mem hm]
  exact h

/-- The result of a first Liveness Offline for friend 2 on the example
state. -/
def first_offline_run : Except HandleLivenessError Unit × LivenessCtx Nat :=
  handle_liveness_message (.new exampleState) (.new Ephemeral.new) SendCommands.new []
    (.offline 2)

/-- A second Liveness Offline for friend 2, started from the state and
ephemeral left behind by the first one. -/
def second_offline_run : Except HandleLivenessError Unit × LivenessCtx Nat :=
  handle_liveness_message (.new first_offline_run.2.mState.state)
    (.new first_offline_run.2.mEphemeral.ephemeral) SendCommands.new [] (.offline 2)

/-- Counterexample for C6: a second Liveness Offline message for an
existing, enabled friend that is already offline returns Ok, not an error
— the Offline branch of handle_liveness_message never checks liveness and
HandleLivenessError has no FriendAlreadyOffline variant. -/
theorem second_offline_returns_ok_counterexample :
    second_offline_run.1 = .ok () := by
  rfl

/-- C6 as amended: for every FunderState with an existing, enabled friend
that is already offline (queues already emptied by the first Offline),
handling a second Liveness Offline message succeeds (returns Ok rather
than an error), leaves the friend offline and generates no new Cancel —
a harmless no-op, not a rejected duplicate transition. -/
theorem second_offline_is_noop {A : Type} (s : FunderState A) (eph : Ephemeral)
    (sc : SendCommands) (oc : List (FunderOutgoingControl A)) (pk : PublicKey)
    (fs : FriendState A) (hlook : alLookup s.friends pk = some fs)
    (hen : fs.status = .enabled)
    (hresp : fs.pendingResponses = []) (hreq : fs.pendingRequests = [])
    (husr : fs.pendingUserRequests = []) (hoff : eph.liveness.is_online pk = false) :
    (handle_liveness_message (.new s) (.new eph) sc oc (.offline pk)).1 = .ok () ∧
    (handle_liveness_message (.new s) (.new eph) sc oc
        (.offline pk)).2.mEphemeral.ephemeral.liveness.is_online pk = false ∧
    (handle_liveness_message (.new s) (.new eph) sc oc (.offline pk)).2.outgoingControl =
      oc := by
  have h1 : alLookup (alUpdate s.friends pk
      (fun x => FriendState.mutate x (.setPendingResponses []))) pk =
      some (fs.mutate (.setPendingResponses [])) :=
    alLookup_alUpdate_self _ _ _ _ hlook
  have h2 : alLookup (alUpdate (alUpdate s.friends pk
      (fun x => FriendState.mutate x (.setPendingResponses []))) pk
      (fun x => FriendState.mutate x (.setPendingRequests []))) pk =
      some ((fs.mutate (.setPendingResponses [])).mutate (.setPendingRequests [])) :=
    alLookup_alUpdate_self _ _ _ _ h1
  refine ⟨?_, ?_, ?_⟩
  all_goals
    simp only [handle_liveness_message, cancel_pending_requests, cancel_pending_user_requests,
      MutableFunderState.new, MutableFunderState.mutate, FunderState.mutate,
      MutableEphemeral.new, MutableEphemeral.mutate, hlook, hen, h1, h2]
  · simp [Ephemeral.mutate]
    exact is_online_mutate_setOffline _ _ hoff
  · simp [FriendState.mutate, hresp, hreq, husr]

/-- Witness for the amended C6 at the emptied example state with friend 2
offline. -/
theorem second_offline_is_noop_witness :
    alLookup exampleStateEmptied.friends 2 = some exampleFriendEmptied ∧
    exampleFriendEmptied.status = .enabled ∧
    exampleFriendEmptied.pendingResponses = [] ∧
    exampleFriendEmptied.pendingRequests = [] ∧
    exampleFriendEmptied.pendingUserRequests = [] ∧
    Ephemeral.new.liveness.is_online 2 = false ∧
    ((handle_liveness_message (.new exampleStateEmptied) (.new Ephemeral.new) SendCommands.new
        ([] : List (FunderOutgoingControl Nat)) (.offline 2)).1 = .ok () ∧
     (handle_liveness_message (.new exampleStateEmptied) (.new Ephemeral.new) SendCommands.new
        ([] : List (FunderOutgoingControl Nat))
        (.offline 2)).2.mEphemeral.ephemeral.liveness.is_online 2 = false ∧
     (handle_liveness_message (.new exampleStateEmptied) (.new Ephemeral.new) SendCommands.new
        ([] : List (FunderOutgoingControl Nat)) (.offline 2)).2.outgoingControl = []) :=
  ⟨by decide, by decide, by decide, by decide, by decide, by decide,
   second_offline_is_noop exampleStateEmptied Ephemeral.new SendCommands.new [] 2
     exampleFriendEmptied (by decide) (by decide) (by decide) (by decide) (by decide)
     (by decide)⟩

/-- C3: create_report produces exactly one FriendReport per friend (same
key set), copies the ready-receipts count and the local public key, and
for every friend present in the state the report entry carries the lengths
of the three pending queues, the friend status, and a channel status that
is Inconsistent with the recorded ChannelInconsistent when the channel is
Inconsistent and Consistent with the direction tag and the mutual credit
balance and requests status otherwise. Being a Lean function of the
FunderState alone, it is pure by construction. -/
theorem create_report_spec {A : Type} (s : FunderState A) (pk : PublicKey)
    (fs : FriendState A) (hlook : alLookup s.friends pk = some fs) :
    (create_report s).friends.map Prod.fst = s.friends.map Prod.fst ∧
    (create_report s).numReadyReceipts = s.readyReceipts.length ∧
    (create_report s).localPublicKey = s.localPublicKey ∧
    ∃ fr, alLookup (create_report s).friends pk = some fr ∧
      fr.numPendingResponses = fs.pendingResponses.length ∧
      fr.numPendingRequests = fs.pendingRequests.length ∧
      fr.numPendingUserRequests = fs.pendingUserRequests.length ∧
      fr.status = fs.status ∧
      (∀ ci, fs.channelStatus = .inconsistent ci → fr.channelStatus = .inconsistent ci) ∧
      (∀ tc, fs.channelStatus = .consistent tc →
        fr.channelStatus = .consistent
          ⟨if tc.is_outgoing then .outgoing else .incoming,
           ⟨tc.get_mutual_credit.state.balance, tc.get_mutual_credit.state.requestsStatus⟩⟩) := by
  refine ⟨mapVals_keys _ _, rfl, rfl, create_friend_report fs, ?_, rfl, rfl, rfl, rfl, ?_, ?_⟩
  · show alLookup (mapVals create_friend_report s.friends) pk = _
    rw [alLookup_mapVals, hlook]
    rfl
  · intro ci hci
    simp [create_friend_report, channel_status_report_of, hci]
  · intro tc htc
    rcases tc with ⟨dir, mc⟩
    cases dir <;>
      simp [create_friend_report, channel_status_report_of, htc, TokenChannel.is_outgoing,
        TokenChannel.get_direction, TokenChannel.get_mutual_credit, create_tc_report,
        MutualCredit.state]

/-- Witness for C3 at the concrete example state and friend 2. -/
theorem create_report_spec_witness :
    alLookup exampleState.friends 2 = some exampleFriend ∧
    ((create_report exampleState).friends.map Prod.fst = exampleState.friends.map Prod.fst ∧
     (create_report exampleState).numReadyReceipts = exampleState.readyReceipts.length ∧
     (create_report exampleState).localPublicKey = exampleState.localPublicKey ∧
     ∃ fr, alLookup (create_report exampleState).friends 2 = some fr ∧
       fr.numPendingResponses = exampleFriend.pendingResponses.length ∧
       fr.numPendingRequests = exampleFriend.pendingRequests.length ∧
       fr.numPendingUserRequests = exampleFriend.pendingUserRequests.length ∧
       fr.status = exampleFriend.status ∧
       (∀ ci, exampleFriend.channelStatus = .inconsistent ci →
          fr.channelStatus = .inconsistent ci) ∧
       (∀ tc, exampleFriend.channelStatus = .consistent tc →
          fr.channelStatus = .consistent
            ⟨if tc.is_outgoing then .outgoing else .incoming,
             ⟨tc.get_mutual_credit.state.balance,
              tc.get_mutual_credit.state.requestsStatus⟩⟩)) :=
  ⟨by decide, create_report_spec exampleState 2 exampleFriend (by decide)⟩

/-- Helper: the report of a freshly added friend equals the friend report
constructed by the report AddFriend mutation. -/
theorem create_friend_report_initial {A : Type} (localPublicKey : PublicKey)
    (af : AddFriend A) :
    create_friend_report (initial_friend_state localPublicKey af) =
      initial_friend_report localPublicKey af.friendPublicKey af.address af.name af.balance := by
  by_cases h : localPublicKey < af.friendPublicKey <;>
    simp [create_friend_report, initial_friend_state, initial_friend_report,
      channel_status_report_of, new_token_channel, TokenChannel.get_direction,
      TokenChannel.get_mutual_credit, create_tc_report, MutualCredit.state,
      initialMoveToken, h]

/-- Helper: projecting a friend state to its report commutes with every
friend mutation and its emitted report mutation. -/
theorem create_friend_report_mutate {A : Type} (fs : FriendState A) (fm : FriendMutation A) :
    create_friend_report (fs.mutate fm) =
      (create_friend_report fs).mutate (friend_mutation_to_report_mutation fm) := by
  cases fm <;> rfl

/-- Helper: the report AddFriend mutation tracks the state AddFriend
mutation through create_report. -/
theorem report_mutate_addFriend {A : Type} (s : FunderState A) (af : AddFriend A) :
    (create_report s).mutate
        (.addFriend (af.friendPublicKey, af.address, af.name, af.balance)) =
      .ok (create_report (s.mutate (.addFriend af))) := by
  simp only [FunderReport.mutate, create_report, FunderState.mutate]
  rw [mapVals_alInsert, create_friend_report_initial]

/-- Helper: a friend report mutation emitted for an existing friend tracks
the state friend mutation through create_report. -/
theorem report_mutate_friendMutation {A : Type} (s : FunderState A) (pk : PublicKey)
    (fm : FriendMutation A) (fs : FriendState A)
    (hlook : alLookup s.friends pk = some fs) :
    (create_report s).mutate
        (.friendReportMutation (pk, friend_mutation_to_report_mutation fm)) =
      .ok (create_report (s.mutate (.friendMutation pk fm))) := by
  have hl2 : alLookup (mapVals create_friend_report s.friends) pk =
      some (create_friend_report fs) := by
    rw [alLookup_mapVals, hlook]
    rfl
  simp only [FunderReport.mutate, create_report, FunderState.mutate]
  rw [mapVals_alUpdate create_friend_report s.friends pk
    (fun x => FriendState.mutate x fm)
    (fun x => FriendReport.mutate x (friend_mutation_to_report_mutation fm))
    (fun v => create_friend_report_mutate v fm)]
  simp only [hl2]

/-- Helper: one successful report mutation step of the replay. -/
theorem applyReportMutations_cons_ok {A : Type} (r : FunderReport A)
    (m : FunderReportMutation A) (r2 : FunderReport A) (ms : List (FunderReportMutation A))
    (h : r.mutate m = .ok r2) :
    applyReportMutations r (m :: ms) = applyReportMutations r2 ms := by
  simp [applyReportMutations, h]

/-- C4: for every FunderState and every sequence of events (invalid events
are rejected with no mutation), the report obtained by folding
create_report over the final state equals the report obtained from the
report of the initial state by replaying, in emission order, the report
mutation stream emitted by the handler — in particular for the sequence
AddFriend, Enable, SetRemoteMaxDebt(100). -/
theorem report_refinement {A : Type} (s : FunderState A) (events : List (Event A)) :
    applyReportMutations (create_report s) (runEvents s events).2 =
      .ok (create_report (runEvents s events).1) := by
  induction events generalizing s with
  | nil => rfl
  | cons e es ih =>
    cases e with
    | addFriend af =>
      cases hl : alLookup s.friends af.friendPublicKey with
      | some fr =>
        simp only [runEvents, handleEvent, hl]
        exact ih s
      | none =>
        simp only [runEvents, handleEvent, hl, funder_mutation_to_report_mutations,
          List.foldl, List.cons_append, List.nil_append]
        rw [applyReportMutations_cons_ok _ _ _ _ (report_mutate_addFriend s af)]
        exact ih _
    | setFriendStatus pk st =>
      cases hl : alLookup s.friends pk with
      | none =>
        simp only [runEvents, handleEvent, hl]
        exact ih s
      | some fs =>
        simp only [runEvents, handleEvent, hl, funder_mutation_to_report_mutations,
          List.foldl, List.cons_append, List.nil_append]
        rw [applyReportMutations_cons_ok _ _ _ _
          (report_mutate_friendMutation s pk (.setStatus st) fs hl)]
        exact ih _
    | setFriendRemoteMaxDebt pk n =>
      cases hl : alLookup s.friends pk with
      | none =>
        simp only [runEvents, handleEvent, hl]
        exact ih s
      | some fs =>
        simp only [runEvents, handleEvent, hl, funder_mutation_to_report_mutations,
          List.foldl, List.cons_append, List.nil_append]
        rw [applyReportMutations_cons_ok _ _ _ _
          (report_mutate_friendMutation s pk (.setWantedRemoteMaxDebt n) fs hl)]
        exact ih _

/-- C2: in the two-node scenario (both nodes initialize, add each other as
friends with addresses 22 and 11, enable, bring each other online), node1
emits exactly one MoveTokenRequest with token_wanted false, move token
counter 0, inconsistency counter 0 and balance 0; after
SetFriendRemoteMaxDebt(100) while not holding the token it emits exactly
one MoveTokenRequest with token_wanted true (the resent initial token);
and once it regains the token it emits exactly one MoveTokenRequest
carrying the SetRemoteMaxDebt operation with token_wanted false. -/
theorem two_node_scenario_spec :
    two_node_scenario = .ok (
      [.friendMessage 2 (.moveTokenRequest
        { friendMoveToken :=
            { operations := [], moveTokenCounter := 0, inconsistencyCounter := 0, balance := 0 }
          tokenWanted := false })],
      [.friendMessage 2 (.moveTokenRequest
        { friendMoveToken :=
            { operations := [], moveTokenCounter := 0, inconsistencyCounter := 0, balance := 0 }
          tokenWanted := true })],
      [.friendMessage 2 (.moveTokenRequest
        { friendMoveToken :=
            { operations := [FriendTcOp.setRemoteMaxDebt 100], moveTokenCounter := 2,
              inconsistencyCounter := 0, balance := 0 }
          tokenWanted := false })]) := by
  rfl

/-- C10: NodeReport mutation with an IndexClient mutation always succeeds;
the NodeReportMutateError can only arise from the Funder variant. -/
theorem node_report_mutate_index_client_ok {B : Type} [DecidableEq B]
    (r : NodeReport B) (im : IndexClientReportMutation B) :
    NodeReport.mutate r (.indexClient im) =
      .ok { r with indexClientReport := r.indexClientReport.mutate im } := by
  rfl
